import Mathlib

/-
Verification of the edge/cloud IoT pipeline:
`src/edge_device.py` (EdgeComputingDevice) and `src/actuator_cloud.py`
(IoTActuator, CloudServer).

Modelling conventions:
* Python floats are modelled as rationals (ℚ); every constant appearing in
  the code and in the claims is exactly representable, and all comparisons
  agree with their float counterparts on the inputs considered.
* Python dicts with insertion order are modelled as association lists.
* `collections.deque(maxlen=w)` is modelled as a `List` together with the
  bounded append `dequeAppend`.
* Wall-clock data (timestamps, `processing_times`) is not modelled: it has
  no bearing on any functional property.
* The human-readable `message` field of an anomaly (a formatted string) is
  presentation-only and is not modelled.
* `sensor_history` is modelled as a total function `Nat → String → List _`
  with unseen nodes/channels mapped to `[]`; this makes
  `initialize_sensor_history` (which lazily creates the per-channel deques
  of a new node) a no-op of the model.
* For the dynamic-typing behaviour of `process_sensor_data` on malformed
  readings (claim about error handling), a second model over `PyVal`
  (number-or-string values) with explicit `Except` errors mirrors the
  Python execution order, including which state mutations happen before an
  exception is raised.  There the per-node channel dict is `Option`-valued
  with only the six channels of `initialize_sensor_history` present, so a
  measurement key outside them raises `KeyError` mid-append exactly as the
  source does, with the earlier appends retained.
-/

set_option autoImplicit false

namespace EdgeVsCloud

/-- `deque(maxlen=maxlen).append v` on Python deques: appends at the right,
evicting the leftmost element when the deque is full
(`edge_device.py` lines 59-64, 86-89). -/
def dequeAppend {α : Type} (maxlen : Nat) (h : List α) (v : α) : List α :=
  if h.length < maxlen then h ++ [v] else h.tail ++ [v]

/-- `self.window_size = 10` (`edge_device.py` line 27). -/
def window_size : Nat := 10

/-- The threshold for the `health` channel, `self.thresholds['health']`
(`edge_device.py` line 36). -/
def health_threshold : ℚ := 30

/-- `self.thresholds` (`edge_device.py` lines 30-37).  The dict is only ever
key-accessed (`sensor in self.thresholds`, `self.thresholds[sensor]`), never
iterated, so it is modelled as its lookup function; `none` models a missing
key. -/
def thresholds (s : String) : Option ℚ :=
  if s = "temperature_1" then some 550
  else if s = "temperature_2" then some 680
  else if s = "pressure" then some 16
  else if s = "vibration" then some 0.08
  else if s = "rpm" then some 2450
  else if s = "health" then some health_threshold
  else none

/-- One anomaly record as built by `detect_anomalies`
(`edge_device.py` lines 138-145, 150-157, 171-179).  Fields that only some
anomaly kinds carry (`threshold`, `previous_avg`, `change_pct`) are
`Option`s; the formatted `message` string is presentation-only and omitted. -/
structure Anomaly where
  type : String
  sensor : String
  value : ℚ
  threshold : Option ℚ
  previous_avg : Option ℚ
  change_pct : Option ℚ
  severity : String
deriving DecidableEq, Repr

/-- The `threshold_exceeded` record (`edge_device.py` lines 138-145). -/
def thresholdAnom (sensor : String) (value t : ℚ) : Anomaly :=
  { type := "threshold_exceeded", sensor := sensor, value := value,
    threshold := some t, previous_avg := none, change_pct := none,
    severity := "WARNING" }

/-- The `low_health` record (`edge_device.py` lines 148-157):
severity `CRITICAL` when `health < 20`, else `WARNING`. -/
def lowHealthAnom (health : ℚ) : Anomaly :=
  { type := "low_health", sensor := "health", value := health,
    threshold := some health_threshold, previous_avg := none,
    change_pct := none,
    severity := if health < 20 then "CRITICAL" else "WARNING" }

/-- The `rapid_change` record (`edge_device.py` lines 171-179). -/
def rapidAnom (sensor : String) (value avg pct : ℚ) : Anomaly :=
  { type := "rapid_change", sensor := sensor, value := value,
    threshold := none, previous_avg := some avg, change_pct := some pct,
    severity := "WARNING" }

/-- The rapid-change check for one channel (`edge_device.py` lines 162-179):
if the channel's history holds at least 5 values, take the last 5
(`list(history[sensor])[-5:]`), average them (`statistics.mean`), and when the
average is strictly positive and `abs((value - avg) / avg) * 100 > 15`
emit a `rapid_change` anomaly. -/
def rapidCheck (hs : List ℚ) (sensor : String) (value : ℚ) : Option Anomaly :=
  if 5 ≤ hs.length then
    let recent_values := hs.drop (hs.length - 5)
    let avg := recent_values.sum / 5
    if 0 < avg then
      let change_pct := |(value - avg) / avg| * 100
      if 15 < change_pct then some (rapidAnom sensor value avg change_pct)
      else none
    else none
  else none

/-- The threshold loop of `detect_anomalies` (`edge_device.py` lines
134-145): for each measurement in dict order whose sensor has a configured
threshold, emit `threshold_exceeded` when the value strictly exceeds it. -/
def thresholdCheck (measurements : List (String × ℚ)) : List Anomaly :=
  measurements.filterMap fun p =>
    match thresholds p.1 with
    | some t => if p.2 > t then some (thresholdAnom p.1 p.2 t) else none
    | none => none

/-- The health check of `detect_anomalies` (`edge_device.py` lines 148-157). -/
def healthCheck (health : ℚ) : List Anomaly :=
  if health < health_threshold then [lowHealthAnom health] else []

/-- The rapid-change loop of `detect_anomalies` (`edge_device.py` lines
160-179), over the measurements in dict order. -/
def rapidChanges (history : String → List ℚ)
    (measurements : List (String × ℚ)) : List Anomaly :=
  measurements.filterMap fun p => rapidCheck (history p.1) p.1 p.2

/-- `EdgeComputingDevice.detect_anomalies` (`edge_device.py` lines 119-181):
threshold check over the measurements in order, then the health check, then
the rapid-change check over the measurements in order.  `history` is the
device's `self.sensor_history[node_id]` at call time (i.e. with the current
reading already appended by `process_sensor_data`). -/
def detect_anomalies (history : String → List ℚ)
    (measurements : List (String × ℚ)) (health : ℚ) : List Anomaly :=
  thresholdCheck measurements ++ healthCheck health ++
    rapidChanges history measurements

/-- `self.metrics` counters (`edge_device.py` lines 40-46), without the
wall-clock `processing_times` deque. -/
structure Metrics where
  total_processed : Nat
  anomalies_detected : Nat
  cloud_messages_sent : Nat
  actuator_commands : Nat
deriving DecidableEq, Repr

/-- The metrics of a freshly constructed device. -/
def initMetrics : Metrics :=
  { total_processed := 0, anomalies_detected := 0,
    cloud_messages_sent := 0, actuator_commands := 0 }

/-- One `self.anomaly_log` entry (`edge_device.py` lines 195-199), without
the wall-clock timestamp. -/
structure LogEntry where
  node_id : Nat
  anomaly : Anomaly
deriving DecidableEq, Repr

/-- The mutable state of an `EdgeComputingDevice`: `self.sensor_history`
(a total function, unseen nodes/channels mapped to `[]`), `self.metrics`
and `self.anomaly_log`. -/
structure EdgeState where
  sensorHistory : Nat → String → List ℚ
  metrics : Metrics
  anomalyLog : List LogEntry

/-- A freshly constructed device (`EdgeComputingDevice.__init__`). -/
def initEdgeState : EdgeState :=
  { sensorHistory := fun _ _ => [], metrics := initMetrics, anomalyLog := [] }

/-- `self.sensor_history[node][ch].append v` in the total-function model. -/
def appendHist {α : Type} (hist : Nat → String → List α)
    (node : Nat) (ch : String) (v : α) : Nat → String → List α :=
  fun n c =>
    if n = node then
      if c = ch then dequeAppend window_size (hist n c) v else hist n c
    else hist n c

/-- The append loop of `process_sensor_data` (`edge_device.py` lines 87-88):
every measurement value is appended to its channel's history, in dict order. -/
def appendMeasurements (hist : Nat → String → List ℚ) (node : Nat)
    (ms : List (String × ℚ)) : Nat → String → List ℚ :=
  ms.foldl (fun h p => appendHist h node p.1 p.2) hist

/-- A sensor reading as consumed by `process_sensor_data`
(`edge_device.py` lines 79-81, 102); the wall-clock timestamp is omitted. -/
structure Reading where
  node_id : Nat
  cycle : Nat
  measurements : List (String × ℚ)
  health : ℚ

/-- The sensor history after the append loop of `process_sensor_data`
(`edge_device.py` lines 86-89): every measurement, then the health value,
appended to the reading's node. -/
def updatedHistory (st : EdgeState) (r : Reading) : Nat → String → List ℚ :=
  appendHist (appendMeasurements st.sensorHistory r.node_id r.measurements)
    r.node_id "health" r.health

/-- The dict returned by `process_sensor_data` (`edge_device.py`
lines 113-117), without the wall-clock `processing_time`. -/
structure ProcResult where
  anomalies : List Anomaly
  should_alert_cloud : Bool
deriving DecidableEq, Repr

/-- The actuator action chosen for one anomaly by `control_actuators`
(`edge_device.py` lines 203-208). -/
def actuatorAction (a : Anomaly) : String :=
  if a.severity = "CRITICAL" then "EMERGENCY_SHUTDOWN"
  else if a.severity = "WARNING" then
    if ("temperature".toList <:+: a.sensor.toList) then "ACTIVATE_COOLING"
    else "ALERT"
  else "MONITOR"

/-- `EdgeComputingDevice.control_actuators` (`edge_device.py` lines 183-211):
per anomaly, increment `actuator_commands` and append to `anomaly_log`
(the computed action string is never stored by the source). -/
def control_actuators (st : EdgeState) (node : Nat)
    (anomalies : List Anomaly) : EdgeState :=
  anomalies.foldl
    (fun s a =>
      { s with
        metrics := { s.metrics with
          actuator_commands := s.metrics.actuator_commands + 1 },
        anomalyLog := s.anomalyLog ++ [{ node_id := node, anomaly := a }] })
    st

/-- `EdgeComputingDevice.process_sensor_data` (`edge_device.py` lines 67-117)
on a well-formed reading: append the measurements and the health value to the
node's history, detect anomalies on the updated history, update the metrics,
compute `should_alert_cloud`, and run `control_actuators` when anomalies were
found.  Returns the updated device state and the result dict. -/
def process_sensor_data (st : EdgeState) (r : Reading) :
    EdgeState × ProcResult :=
  let hist2 := updatedHistory st r
  let anomalies := detect_anomalies (hist2 r.node_id) r.measurements r.health
  let m1 := { st.metrics with
    total_processed := st.metrics.total_processed + 1 }
  let should_alert_cloud : Bool :=
    !anomalies.isEmpty || r.cycle % 10 == 0
  let m2 := if should_alert_cloud then
      { m1 with cloud_messages_sent := m1.cloud_messages_sent + 1 }
    else m1
  let st1 : EdgeState :=
    { st with sensorHistory := hist2, metrics := m2 }
  let st2 :=
    if anomalies.isEmpty then st1
    else
      control_actuators
        { st1 with metrics := { st1.metrics with
            anomalies_detected :=
              st1.metrics.anomalies_detected + anomalies.length } }
        r.node_id anomalies
  (st2, { anomalies := anomalies, should_alert_cloud := should_alert_cloud })

/-- The test reading of `test_edge_device` (`edge_device.py` lines 277-289). -/
def test_reading : Reading :=
  { node_id := 1, cycle := 150,
    measurements := [("temperature_1", 555), ("temperature_2", 685),
      ("pressure", 15.8), ("vibration", 0.075), ("rpm", 2420)],
    health := 25 }

theorem appendMeasurements_nil (hist : Nat → String → List ℚ) (node : Nat) :
    appendMeasurements hist node [] = hist := rfl

theorem appendMeasurements_cons (hist : Nat → String → List ℚ) (node : Nat)
    (p : String × ℚ) (ms : List (String × ℚ)) :
    appendMeasurements hist node (p :: ms) =
      appendMeasurements (appendHist hist node p.1 p.2) node ms := rfl

theorem appendHist_apply {α : Type} (hist : Nat → String → List α)
    (node : Nat) (ch : String) (v : α) (n : Nat) (c : String) :
    appendHist hist node ch v n c =
      if n = node ∧ c = ch then dequeAppend window_size (hist n c) v
      else hist n c := by
  by_cases h1 : n = node <;> by_cases h2 : c = ch <;>
    simp [appendHist, h1, h2]

theorem appendMeasurements_apply_notMem (hist : Nat → String → List ℚ)
    (node : Nat) (ms : List (String × ℚ)) (n : Nat) (s : String)
    (h : s ∉ ms.map Prod.fst) :
    appendMeasurements hist node ms n s = hist n s := by
  induction ms generalizing hist with
  | nil => rfl
  | cons p rest ih =>
    simp only [List.map_cons, List.mem_cons, not_or] at h
    rw [appendMeasurements_cons, ih _ h.2, appendHist_apply]
    simp [h.1]

theorem appendMeasurements_apply_other (hist : Nat → String → List ℚ)
    (node : Nat) (ms : List (String × ℚ)) (n : Nat) (s : String)
    (h : n ≠ node) :
    appendMeasurements hist node ms n s = hist n s := by
  induction ms generalizing hist with
  | nil => rfl
  | cons p rest ih =>
    rw [appendMeasurements_cons, ih, appendHist_apply]
    simp [h]

theorem appendMeasurements_apply_mem (hist : Nat → String → List ℚ)
    (node : Nat) (ms : List (String × ℚ)) (s : String) (v : ℚ)
    (hnd : (ms.map Prod.fst).Nodup) (hmem : (s, v) ∈ ms) :
    appendMeasurements hist node ms node s =
      dequeAppend window_size (hist node s) v := by
  induction ms generalizing hist with
  | nil => cases hmem
  | cons p rest ih =>
    simp only [List.map_cons, List.nodup_cons] at hnd
    rcases List.mem_cons.mp hmem with heq | hmem2
    · have hkey : p.1 = s := by rw [← heq]
      have hrest : s ∉ rest.map Prod.fst := hkey ▸ hnd.1
      rw [appendMeasurements_cons,
        appendMeasurements_apply_notMem _ _ _ _ _ hrest, appendHist_apply]
      have hval : p.2 = v := by rw [← heq]
      simp [hkey, hval]
    · have hkey : p.1 ≠ s := by
        intro hcontra
        exact hnd.1 (hcontra ▸ (List.mem_map_of_mem Prod.fst hmem2))
      rw [appendMeasurements_cons, ih _ hnd.2 hmem2, appendHist_apply]
      simp [Ne.symm hkey]

theorem updatedHistory_apply_meas (st : EdgeState) (r : Reading) (s : String)
    (v : ℚ) (hnd : (r.measurements.map Prod.fst).Nodup)
    (hmem : (s, v) ∈ r.measurements) (hsh : s ≠ "health") :
    updatedHistory st r r.node_id s =
      dequeAppend window_size (st.sensorHistory r.node_id s) v := by
  rw [updatedHistory, appendHist_apply]
  simp only [hsh, and_false, if_false]
  exact appendMeasurements_apply_mem _ _ _ _ _ hnd hmem

theorem updatedHistory_apply_health (st : EdgeState) (r : Reading)
    (hh : "health" ∉ r.measurements.map Prod.fst) :
    updatedHistory st r r.node_id "health" =
      dequeAppend window_size (st.sensorHistory r.node_id "health") r.health := by
  rw [updatedHistory, appendHist_apply]
  simp only [and_self, if_true, if_pos rfl]
  rw [appendMeasurements_apply_notMem _ _ _ _ _ hh]

/-- C1: processing the reading `{node_id 1, cycle 150, measurements
{temperature_1 555, temperature_2 685, pressure 15.8, vibration 0.075,
rpm 2420}, health 25}` on a freshly constructed device yields exactly three
anomalies — `threshold_exceeded` for `temperature_1` (WARNING),
`threshold_exceeded` for `temperature_2` (WARNING), and `low_health`
(WARNING) — and `should_alert_cloud = true`. -/
theorem C1_process_test_reading :
    (process_sensor_data initEdgeState test_reading).2 =
      { anomalies :=
          [{ type := "threshold_exceeded", sensor := "temperature_1",
             value := 555, threshold := some 550, previous_avg := none,
             change_pct := none, severity := "WARNING" },
           { type := "threshold_exceeded", sensor := "temperature_2",
             value := 685, threshold := some 680, previous_avg := none,
             change_pct := none, severity := "WARNING" },
           { type := "low_health", sensor := "health", value := 25,
             threshold := some 30, previous_avg := none, change_pct := none,
             severity := "WARNING" }],
        should_alert_cloud := true } := by
  have hnd : (test_reading.measurements.map Prod.fst).Nodup := by decide
  have h1 : updatedHistory initEdgeState test_reading 1 "temperature_1" = [555] := by
    have := updatedHistory_apply_meas initEdgeState test_reading
      "temperature_1" 555 hnd (by simp [test_reading]) (by decide)
    simpa [test_reading, initEdgeState, dequeAppend, window_size] using this
  have h2 : updatedHistory initEdgeState test_reading 1 "temperature_2" = [685] := by
    have := updatedHistory_apply_meas initEdgeState test_reading
      "temperature_2" 685 hnd (by simp [test_reading]) (by decide)
    simpa [test_reading, initEdgeState, dequeAppend, window_size] using this
  have h3 : updatedHistory initEdgeState test_reading 1 "pressure" = [15.8] := by
    have := updatedHistory_apply_meas initEdgeState test_reading
      "pressure" 15.8 hnd (by simp [test_reading]) (by decide)
    simpa [test_reading, initEdgeState, dequeAppend, window_size] using this
  have h4 : updatedHistory initEdgeState test_reading 1 "vibration" = [0.075] := by
    have := updatedHistory_apply_meas initEdgeState test_reading
      "vibration" 0.075 hnd (by simp [test_reading]) (by decide)
    simpa [test_reading, initEdgeState, dequeAppend, window_size] using this
  have h5 : updatedHistory initEdgeState test_reading 1 "rpm" = [2420] := by
    have := updatedHistory_apply_meas initEdgeState test_reading
      "rpm" 2420 hnd (by simp [test_reading]) (by decide)
    simpa [test_reading, initEdgeState, dequeAppend, window_size] using this
  simp only [process_sensor_data,
    show test_reading.node_id = 1 from rfl,
    show test_reading.cycle = 150 from rfl,
    show test_reading.health = (25 : ℚ) from rfl,
    show test_reading.measurements =
      [("temperature_1", (555 : ℚ)), ("temperature_2", 685),
       ("pressure", 15.8), ("vibration", 0.075), ("rpm", 2420)] from rfl,
    detect_anomalies, thresholdCheck, healthCheck, rapidChanges,
    List.filterMap_cons, List.filterMap_nil]
  rw [h1, h2, h3, h4, h5]
  simp [rapidCheck, thresholds, health_threshold]
  norm_num [thresholdAnom, lowHealthAnom, health_threshold]

theorem foldl_dequeAppend {α : Type} (m : Nat) (hm : 0 < m) (xs : List α) :
    xs.foldl (dequeAppend m) [] = xs.drop (xs.length - m) := by
  induction xs using List.reverseRecOn with
  | nil => simp
  | append_singleton l a ih =>
    rw [List.foldl_append, List.foldl_cons, List.foldl_nil, ih]
    by_cases hlt : l.length < m
    · have h0 : l.length - m = 0 := Nat.sub_eq_zero_of_le hlt.le
      have h1 : l.length + 1 - m = 0 := Nat.sub_eq_zero_of_le hlt
      rw [h0, List.drop_zero, dequeAppend, if_pos hlt]
      simp [h1]
    · push_neg at hlt
      have hd : (l.drop (l.length - m)).length = m := by
        rw [List.length_drop, Nat.sub_sub_self hlt]
      rw [dequeAppend, if_neg (by rw [hd]; exact Nat.lt_irrefl m),
        List.tail_drop]
      have hlen : (l ++ [a]).length - m = l.length - m + 1 := by
        rw [List.length_append, List.length_singleton,
          Nat.sub_add_comm hlt]
      rw [hlen, List.drop_append_of_le_length]
      omega

theorem dequeAppend_length_le {α : Type} (m : Nat) (h : List α) (v : α)
    (hm : 0 < m) (hb : h.length ≤ m) : (dequeAppend m h v).length ≤ m := by
  rw [dequeAppend]
  by_cases hlt : h.length < m
  · rw [if_pos hlt]; simp; omega
  · rw [if_neg hlt]
    have : h.length = m := le_antisymm hb (not_lt.mp hlt)
    simp [List.length_tail]
    omega

theorem appendMeasurements_length_le (hist : Nat → String → List ℚ)
    (node : Nat) (ms : List (String × ℚ)) (n : Nat) (s : String)
    (hb : (hist n s).length ≤ window_size) :
    (appendMeasurements hist node ms n s).length ≤ window_size := by
  induction ms generalizing hist with
  | nil => exact hb
  | cons p rest ih =>
    rw [appendMeasurements_cons]
    refine ih _ ?_
    rw [appendHist_apply]
    by_cases hc : n = node ∧ s = p.1
    · rw [if_pos hc]
      exact dequeAppend_length_le _ _ _ (by norm_num [window_size]) hb
    · rwa [if_neg hc]

theorem control_actuators_sensorHistory (st : EdgeState) (node : Nat)
    (anomalies : List Anomaly) :
    (control_actuators st node anomalies).sensorHistory = st.sensorHistory := by
  induction anomalies generalizing st with
  | nil => rfl
  | cons a rest ih => rw [control_actuators, List.foldl_cons]; exact ih _

theorem process_sensor_data_sensorHistory (st : EdgeState) (r : Reading) :
    (process_sensor_data st r).1.sensorHistory = updatedHistory st r := by
  rw [process_sensor_data]
  by_cases he : (detect_anomalies ((updatedHistory st r) r.node_id)
      r.measurements r.health).isEmpty
  · simp only [he, if_true]
  · simp only [he, if_false, Bool.false_eq_true, control_actuators_sensorHistory]

/-- C2: for every sequence of values appended to one (node, channel) deque,
the buffer holds at most `window_size = 10` values and equals the last
`min(10, n)` appended values in insertion order (FIFO eviction); moreover
`process_sensor_data` preserves the per-channel length bound. -/
theorem C2_window_bound :
    (∀ xs : List ℚ,
      (xs.foldl (dequeAppend window_size) []).length ≤ window_size ∧
      xs.foldl (dequeAppend window_size) [] =
        xs.drop (xs.length - window_size)) ∧
    (∀ (st : EdgeState) (r : Reading) (n : Nat) (c : String),
      (st.sensorHistory n c).length ≤ window_size →
      ((process_sensor_data st r).1.sensorHistory n c).length ≤ window_size) := by
  constructor
  · intro xs
    have heq := foldl_dequeAppend window_size (by norm_num [window_size]) xs
    refine ⟨?_, heq⟩
    rw [heq, List.length_drop]
    omega
  · intro st r n c hb
    rw [process_sensor_data_sensorHistory, updatedHistory, appendHist_apply]
    by_cases hc : n = r.node_id ∧ c = "health"
    · rw [if_pos hc]
      exact dequeAppend_length_le _ _ _ (by norm_num [window_size])
        (appendMeasurements_length_le _ _ _ _ _ hb)
    · rw [if_neg hc]
      exact appendMeasurements_length_le _ _ _ _ _ hb

/-- Witness for C2 at a concrete device state and reading. -/
theorem C2_window_bound_witness :
    ((process_sensor_data initEdgeState test_reading).1.sensorHistory
      1 "health").length ≤ window_size :=
  C2_window_bound.2 initEdgeState test_reading 1 "health"
    (by simp [initEdgeState, window_size])

theorem rapidCheck_eq_some (hs : List ℚ) (s : String) (v : ℚ) (a : Anomaly)
    (h : rapidCheck hs s v = some a) :
    5 ≤ hs.length ∧
    0 < (hs.drop (hs.length - 5)).sum / 5 ∧
    15 < |(v - (hs.drop (hs.length - 5)).sum / 5) /
      ((hs.drop (hs.length - 5)).sum / 5)| * 100 ∧
    a = rapidAnom s v ((hs.drop (hs.length - 5)).sum / 5)
      (|(v - (hs.drop (hs.length - 5)).sum / 5) /
        ((hs.drop (hs.length - 5)).sum / 5)| * 100) := by
  simp only [rapidCheck] at h
  split_ifs at h with h1 h2 h3
  · injection h with h
    exact ⟨h1, h2, h3, h.symm⟩

theorem mem_thresholdCheck (a : Anomaly) (ms : List (String × ℚ))
    (h : a ∈ thresholdCheck ms) :
    a.type = "threshold_exceeded" ∧ a.severity = "WARNING" := by
  rw [thresholdCheck, List.mem_filterMap] at h
  obtain ⟨p, _, hp⟩ := h
  rcases hthr : thresholds p.1 with _ | t <;> rw [hthr] at hp <;>
    dsimp only at hp
  · cases hp
  · split_ifs at hp
    cases hp
    exact ⟨rfl, rfl⟩

theorem mem_healthCheck (a : Anomaly) (health : ℚ)
    (h : a ∈ healthCheck health) :
    a.type = "low_health" ∧
    (a.severity = "CRITICAL" ∨ a.severity = "WARNING") := by
  rw [healthCheck] at h
  split_ifs at h
  · rcases List.mem_singleton.mp h with rfl
    refine ⟨rfl, ?_⟩
    rw [lowHealthAnom]
    split_ifs <;> simp
  · cases h

theorem mem_rapidChanges (a : Anomaly) (hist : String → List ℚ)
    (ms : List (String × ℚ)) (h : a ∈ rapidChanges hist ms) :
    a.type = "rapid_change" ∧ a.severity = "WARNING" ∧
    ∃ p ∈ ms, rapidCheck (hist p.1) p.1 p.2 = some a := by
  rw [rapidChanges, List.mem_filterMap] at h
  obtain ⟨p, hpmem, hp⟩ := h
  obtain ⟨-, -, -, ha⟩ := rapidCheck_eq_some _ _ _ _ hp
  subst ha
  exact ⟨rfl, rfl, p, hpmem, hp⟩

/-- C6: `should_alert_cloud` is true iff the anomaly list is non-empty or
`cycle mod 10 == 0` (`edge_device.py` lines 100-103); in particular with an
empty anomaly list it is false for cycles 1-9 and true when the cycle is a
multiple of 10 (such as cycle 10). -/
theorem C6_should_alert_iff (st : EdgeState) (r : Reading) :
    ((process_sensor_data st r).2.should_alert_cloud = true ↔
      ((process_sensor_data st r).2.anomalies ≠ [] ∨ r.cycle % 10 = 0)) ∧
    ((process_sensor_data st r).2.anomalies = [] → 1 ≤ r.cycle →
      r.cycle ≤ 9 → (process_sensor_data st r).2.should_alert_cloud = false) ∧
    ((process_sensor_data st r).2.anomalies = [] → r.cycle % 10 = 0 →
      (process_sensor_data st r).2.should_alert_cloud = true) := by
  have hmain : (process_sensor_data st r).2.should_alert_cloud = true ↔
      ((process_sensor_data st r).2.anomalies ≠ [] ∨ r.cycle % 10 = 0) := by
    simp [process_sensor_data]
  refine ⟨hmain, ?_, ?_⟩
  · intro he h1 h9
    cases hb : (process_sensor_data st r).2.should_alert_cloud
    · rfl
    · rcases hmain.mp hb with h | h
      · exact absurd he h
      · omega
  · intro _ h10
    exact hmain.mpr (Or.inr h10)

/-- A reading that triggers no anomaly (all values under threshold, healthy,
no history): used as a concrete witness input. -/
def quiet_reading : Reading :=
  { node_id := 1, cycle := 5, measurements := [("pressure", 12)], health := 50 }

/-- Witness for C6: on a quiet reading at cycle 5 nothing is forwarded. -/
theorem C6_should_alert_iff_witness :
    (process_sensor_data initEdgeState quiet_reading).2.should_alert_cloud
      = false :=
  (C6_should_alert_iff initEdgeState quiet_reading).2.1 (by decide)
    (by decide) (by decide)

/-- C7: `detect_anomalies` emits a `low_health` anomaly iff `health < 30`,
with severity CRITICAL when `health < 20` and WARNING when
`20 ≤ health < 30`; for `health ≥ 30` no `low_health` anomaly is emitted
(`edge_device.py` lines 148-157). -/
theorem C7_low_health_severity (hist : String → List ℚ)
    (ms : List (String × ℚ)) (health : ℚ) :
    (detect_anomalies hist ms health).filter
        (fun a => a.type == "low_health") =
      if health < 30 then
        [{ type := "low_health", sensor := "health", value := health,
           threshold := some 30, previous_avg := none, change_pct := none,
           severity := if health < 20 then "CRITICAL" else "WARNING" }]
      else [] := by
  rw [detect_anomalies, List.filter_append, List.filter_append]
  have ht : (thresholdCheck ms).filter (fun a => a.type == "low_health") = [] := by
    rw [List.filter_eq_nil_iff]
    intro a ha
    have := (mem_thresholdCheck a ms ha).1
    simp [this]
  have hr : (rapidChanges hist ms).filter (fun a => a.type == "low_health") = [] := by
    rw [List.filter_eq_nil_iff]
    intro a ha
    have := (mem_rapidChanges a hist ms ha).1
    simp [this]
  rw [ht, hr, healthCheck, health_threshold]
  split_ifs with hh h20
  · simp [lowHealthAnom, health_threshold, hh, h20]
  · simp [lowHealthAnom, health_threshold, hh, h20]
  · simp

/-- C10: every anomaly produced by `detect_anomalies` has severity WARNING
or CRITICAL, and consequently the action chosen by `control_actuators` is
always EMERGENCY_SHUTDOWN, ACTIVATE_COOLING or ALERT — the MONITOR branch
is unreachable for detector-produced anomalies
(`edge_device.py` lines 131-181, 203-208). -/
theorem C10_severity_and_actions (hist : String → List ℚ)
    (ms : List (String × ℚ)) (health : ℚ) (a : Anomaly)
    (ha : a ∈ detect_anomalies hist ms health) :
    (a.severity = "WARNING" ∨ a.severity = "CRITICAL") ∧
    (actuatorAction a = "EMERGENCY_SHUTDOWN" ∨
     actuatorAction a = "ACTIVATE_COOLING" ∨
     actuatorAction a = "ALERT") := by
  have hsev : a.severity = "WARNING" ∨ a.severity = "CRITICAL" := by
    rw [detect_anomalies] at ha
    rcases List.mem_append.mp ha with hl | hrap
    · rcases List.mem_append.mp hl with hth | hhe
      · exact Or.inl (mem_thresholdCheck a ms hth).2
      · exact (mem_healthCheck a health hhe).2.symm
    · exact Or.inl (mem_rapidChanges a hist ms hrap).2.1
  refine ⟨hsev, ?_⟩
  rw [actuatorAction]
  rcases hsev with hw | hc
  · rw [if_neg (by rw [hw]; decide), if_pos hw]
    split_ifs
    · exact Or.inr (Or.inl rfl)
    · exact Or.inr (Or.inr rfl)
  · rw [if_pos hc]
    exact Or.inl rfl

/-- Witness for C10 at a concrete anomaly of a concrete detector run. -/
theorem C10_severity_and_actions_witness :
    (actuatorAction (thresholdAnom "pressure" 20 16) = "EMERGENCY_SHUTDOWN" ∨
     actuatorAction (thresholdAnom "pressure" 20 16) = "ACTIVATE_COOLING" ∨
     actuatorAction (thresholdAnom "pressure" 20 16) = "ALERT") :=
  (C10_severity_and_actions (fun _ => []) [("pressure", 20)] 50
    (thresholdAnom "pressure" 20 16) (by decide)).2

theorem nodup_val_unique (ms : List (String × ℚ))
    (hnd : (ms.map Prod.fst).Nodup) (s : String) (v w : ℚ)
    (h1 : (s, v) ∈ ms) (h2 : (s, w) ∈ ms) : v = w := by
  induction ms with
  | nil => cases h1
  | cons p rest ih =>
    simp only [List.map_cons, List.nodup_cons] at hnd
    rcases List.mem_cons.mp h1 with he1 | hm1 <;>
      rcases List.mem_cons.mp h2 with he2 | hm2
    · simpa using he1.trans he2.symm
    · subst he1
      exact absurd (List.mem_map_of_mem Prod.fst hm2) hnd.1
    · subst he2
      exact absurd (List.mem_map_of_mem Prod.fst hm1) hnd.1
    · exact ih hnd.2 hm1 hm2

theorem dequeAppend_four_le (h : List ℚ) (v : ℚ)
    (h5 : 5 ≤ (dequeAppend window_size h v).length) : 4 ≤ h.length := by
  rw [dequeAppend, window_size] at h5
  split_ifs at h5 with hc
  · simp at h5
    omega
  · simp [List.length_tail] at h5 hc
    omega

theorem dequeAppend_last_five (h : List ℚ) (v : ℚ) (h4 : 4 ≤ h.length) :
    (dequeAppend window_size h v).drop
      ((dequeAppend window_size h v).length - 5) =
    h.drop (h.length - 4) ++ [v] := by
  rw [dequeAppend, window_size]
  by_cases hlt : h.length < 10
  · rw [if_pos hlt, List.length_append, List.length_singleton]
    have he : h.length + 1 - 5 = h.length - 4 := by omega
    rw [he, List.drop_append_of_le_length (by omega)]
  · rw [if_neg hlt]
    push_neg at hlt
    have htl : h.tail.length = h.length - 1 := List.length_tail h
    rw [List.length_append, List.length_singleton, htl]
    have h1 : h.length - 1 + 1 - 5 = h.length - 5 := by omega
    rw [h1, List.drop_append_of_le_length (by omega)]
    congr 1
    rw [← List.drop_one, List.drop_drop]
    congr 1
    omega

/-- A device state whose node 1 already holds four `pressure` samples. -/
def four_sample_state : EdgeState :=
  { sensorHistory := fun n c =>
      if n = 1 then (if c = "pressure" then [10, 10, 10, 10] else []) else [],
    metrics := initMetrics, anomalyLog := [] }

/-- A fifth `pressure` reading for node 1, below every threshold. -/
def fifth_reading : Reading :=
  { node_id := 1, cycle := 1, measurements := [("pressure", 14)], health := 50 }

theorem four_sample_run :
    (process_sensor_data four_sample_state fifth_reading).2.anomalies =
      [rapidAnom "pressure" 14 (54/5) (800/27)] := by
  have hnd : (fifth_reading.measurements.map Prod.fst).Nodup := by decide
  have hp : updatedHistory four_sample_state fifth_reading 1 "pressure" =
      [10, 10, 10, 10, 14] := by
    have := updatedHistory_apply_meas four_sample_state fifth_reading
      "pressure" 14 hnd (by simp [fifth_reading]) (by decide)
    simpa [fifth_reading, four_sample_state, dequeAppend, window_size]
      using this
  simp only [process_sensor_data,
    show fifth_reading.node_id = 1 from rfl,
    show fifth_reading.cycle = 1 from rfl,
    show fifth_reading.health = (50 : ℚ) from rfl,
    show fifth_reading.measurements = [("pressure", (14 : ℚ))] from rfl,
    detect_anomalies, thresholdCheck, healthCheck, rapidChanges,
    List.filterMap_cons, List.filterMap_nil]
  rw [hp]
  simp [rapidCheck, thresholds, health_threshold]
  norm_num [rapidAnom, abs_of_nonneg]

/-- C3 counterexample: with only four prior `pressure` samples
(`[10, 10, 10, 10]`), processing the fifth value 14 emits a `rapid_change`
anomaly whose `previous_avg` is `54/5`, the mean of the last five
post-append values `[10, 10, 10, 10, 14]` — which includes the current
reading — and differs from `10`, the mean of the samples recorded before
the current reading.  This contradicts both parts of the claim. -/
theorem C3_rapid_change_counterexample :
    (four_sample_state.sensorHistory 1 "pressure").length = 4 ∧
    (process_sensor_data four_sample_state fifth_reading).2.anomalies =
      [rapidAnom "pressure" 14 (54/5) (800/27)] ∧
    ([(10 : ℚ), 10, 10, 10, 14].sum) / 5 = 54/5 ∧
    ([(10 : ℚ), 10, 10, 10].sum) / 4 ≠ 54/5 := by
  refine ⟨by decide, four_sample_run, by norm_num, by norm_num⟩

/-- C3 (amended): a `rapid_change` anomaly for a measurement channel `s` is
emitted by `process_sensor_data` only when at least 4 samples for `s`
precede the current reading, and the average used (`previous_avg`) is the
mean of the last five post-append history values, i.e. of the four most
recent prior samples together with the current reading's value. -/
theorem C3_rapid_change_window_amended (st : EdgeState) (r : Reading)
    (s : String) (v : ℚ)
    (hnd : (r.measurements.map Prod.fst).Nodup)
    (hmem : (s, v) ∈ r.measurements)
    (hsh : s ≠ "health")
    (a : Anomaly)
    (ha : a ∈ (process_sensor_data st r).2.anomalies)
    (hty : a.type = "rapid_change") (hse : a.sensor = s) :
    4 ≤ (st.sensorHistory r.node_id s).length ∧
    a.previous_avg = some
      (((st.sensorHistory r.node_id s).drop
          ((st.sensorHistory r.node_id s).length - 4) ++ [v]).sum / 5) := by
  have hanoms : (process_sensor_data st r).2.anomalies =
      detect_anomalies (updatedHistory st r r.node_id)
        r.measurements r.health := rfl
  rw [hanoms, detect_anomalies] at ha
  rcases List.mem_append.mp ha with hl | hrap
  · rcases List.mem_append.mp hl with hth | hhe
    · have h1 := (mem_thresholdCheck a _ hth).1
      rw [hty] at h1
      exact absurd h1 (by decide)
    · have h1 := (mem_healthCheck a _ hhe).1
      rw [hty] at h1
      exact absurd h1 (by decide)
  · obtain ⟨-, -, p, hpmem, hpcheck⟩ := mem_rapidChanges a _ _ hrap
    obtain ⟨ps, pv⟩ := p
    obtain ⟨hlen5, -, -, haeq⟩ := rapidCheck_eq_some _ _ _ _ hpcheck
    have hps : ps = s := by
      rw [haeq] at hse
      simpa [rapidAnom] using hse
    subst hps
    have hval : pv = v := nodup_val_unique _ hnd _ _ _ hpmem hmem
    subst hval
    have hH : updatedHistory st r r.node_id ps =
        dequeAppend window_size (st.sensorHistory r.node_id ps) pv :=
      updatedHistory_apply_meas st r ps pv hnd hmem hsh
    rw [hH] at hlen5 haeq
    refine ⟨dequeAppend_four_le _ _ hlen5, ?_⟩
    rw [haeq]
    simp only [rapidAnom]
    rw [dequeAppend_last_five _ _ (dequeAppend_four_le _ _ hlen5)]

/-- Witness for the amended C3 on the concrete four-prior-samples run. -/
theorem C3_rapid_change_window_amended_witness :
    4 ≤ (four_sample_state.sensorHistory fifth_reading.node_id
      "pressure").length ∧
    (rapidAnom "pressure" 14 (54/5) (800/27)).previous_avg = some
      (((four_sample_state.sensorHistory fifth_reading.node_id
          "pressure").drop
        ((four_sample_state.sensorHistory fifth_reading.node_id
          "pressure").length - 4) ++ [14]).sum / 5) :=
  C3_rapid_change_window_amended four_sample_state fifth_reading
    "pressure" 14 (by decide) (by decide) (by decide)
    (rapidAnom "pressure" 14 (54/5) (800/27))
    (by rw [four_sample_run]; exact List.mem_singleton_self _)
    rfl rfl

/-- C4 counterexample: for a channel whose five-sample average is `-10`
(non-zero) and whose percentage change `|value − avg|/avg·100 = 110`
exceeds 15, `detect_anomalies` emits nothing, because the code requires
`avg > 0`, not `avg ≠ 0`. -/
theorem C4_negative_avg_counterexample :
    ([(-10 : ℚ), -10, -10, -10, -10].sum / 5 ≠ 0) ∧
    15 < |((1 : ℚ) - [(-10 : ℚ), -10, -10, -10, -10].sum / 5) /
      ([(-10 : ℚ), -10, -10, -10, -10].sum / 5)| * 100 ∧
    detect_anomalies
      (fun c => if c = "pressure" then [-10, -10, -10, -10, -10] else [])
      [("pressure", 1)] 50 = [] := by
  refine ⟨by norm_num, by norm_num [abs_of_nonpos], ?_⟩
  simp [detect_anomalies, thresholdCheck, healthCheck, rapidChanges,
    rapidCheck, thresholds, health_threshold, List.filterMap_cons]
  norm_num

/-- C4 (amended): in the rapid-change check (`rapidCheck`, the per-channel
body of the rapid-change loop of `detect_anomalies`), whenever the
five-sample average is ≤ 0 — including avg = 0, so no division by zero is
ever performed — no anomaly is emitted; when the average is > 0, a
`rapid_change` anomaly with severity WARNING is emitted iff
`|value − avg|/avg·100 > 15`.  Every `rapid_change` anomaly of
`detect_anomalies` arises from `rapidCheck` on its own channel. -/
theorem C4_avg_guard_amended (hs : List ℚ) (s : String) (v : ℚ)
    (hlen : 5 ≤ hs.length) :
    ((hs.drop (hs.length - 5)).sum / 5 ≤ 0 → rapidCheck hs s v = none) ∧
    (0 < (hs.drop (hs.length - 5)).sum / 5 →
      ((∃ a, rapidCheck hs s v = some a ∧ a.severity = "WARNING") ↔
        15 < |(v - (hs.drop (hs.length - 5)).sum / 5) /
          ((hs.drop (hs.length - 5)).sum / 5)| * 100)) ∧
    (∀ (hist : String → List ℚ) (ms : List (String × ℚ)) (health : ℚ)
      (a : Anomaly), a ∈ detect_anomalies hist ms health →
      a.type = "rapid_change" →
      ∃ p ∈ ms, rapidCheck (hist p.1) p.1 p.2 = some a) := by
  refine ⟨?_, ?_, ?_⟩
  · intro h0
    simp only [rapidCheck, if_pos hlen]
    rw [if_neg (not_lt.mpr h0)]
  · intro hpos
    constructor
    · rintro ⟨a, hsome, -⟩
      exact (rapidCheck_eq_some _ _ _ _ hsome).2.2.1
    · intro hpct
      refine ⟨rapidAnom s v ((hs.drop (hs.length - 5)).sum / 5)
        (|(v - (hs.drop (hs.length - 5)).sum / 5) /
          ((hs.drop (hs.length - 5)).sum / 5)| * 100), ?_, rfl⟩
      simp only [rapidCheck, if_pos hlen]
      rw [if_pos hpos, if_pos hpct]
  · intro hist ms health a ha hty
    rw [detect_anomalies] at ha
    rcases List.mem_append.mp ha with hl | hrap
    · rcases List.mem_append.mp hl with hth | hhe
      · have h1 := (mem_thresholdCheck a _ hth).1
        rw [hty] at h1
        exact absurd h1 (by decide)
      · have h1 := (mem_healthCheck a _ hhe).1
        rw [hty] at h1
        exact absurd h1 (by decide)
    · obtain ⟨-, -, p, hpmem, hpcheck⟩ := mem_rapidChanges a _ _ hrap
      exact ⟨p, hpmem, hpcheck⟩

/-- Witness for the amended C4: a positive-average channel over threshold
emits, a concrete instance of the iff's right-to-left direction. -/
theorem C4_avg_guard_amended_witness :
    ∃ a, rapidCheck [(10 : ℚ), 10, 10, 10, 10] "pressure" 12 = some a ∧
      a.severity = "WARNING" :=
  ((C4_avg_guard_amended [(10 : ℚ), 10, 10, 10, 10] "pressure" 12
      (by decide)).2.1 (by norm_num)).mpr (by norm_num [abs_of_nonneg])

/-- One `activation_log` entry (`actuator_cloud.py` lines 38-43), without
the wall-clock timestamp. -/
structure ActLogEntry where
  reason : String
  severity : String
  action : String
deriving DecidableEq, Repr

/-- `IoTActuator` state (`actuator_cloud.py` lines 15-25). -/
structure IoTActuator where
  actuator_id : Nat
  actuator_type : String
  state : String
  activation_count : Nat
  activation_log : List ActLogEntry
deriving DecidableEq, Repr

/-- `IoTActuator.__init__` (`actuator_cloud.py` lines 15-25). -/
def mkActuator (actuator_id : Nat) (actuator_type : String) : IoTActuator :=
  { actuator_id := actuator_id, actuator_type := actuator_type,
    state := "OFF", activation_count := 0, activation_log := [] }

/-- The log entry built by `IoTActuator.activate`
(`actuator_cloud.py` lines 38-43). -/
def activationEntry (a : IoTActuator) (reason : String) (severity : String) :
    ActLogEntry :=
  { reason := reason
    severity := severity
    action := a.actuator_type.toUpper ++ "_ACTIVATED" }

/-- `IoTActuator.activate` (`actuator_cloud.py` lines 27-51): set the state
to ON, increment `activation_count`, append a log entry; the source also
returns the entry, the updated actuator being the relevant effect. -/
def activate (a : IoTActuator) (reason : String) (severity : String) :
    IoTActuator :=
  { a with
    state := "ON"
    activation_count := a.activation_count + 1
    activation_log := a.activation_log ++ [activationEntry a reason severity] }

/-- `IoTActuator.deactivate` (`actuator_cloud.py` lines 53-57). -/
def deactivate (a : IoTActuator) : IoTActuator :=
  if a.state = "ON" then { a with state := "OFF" } else a

/-- C9: `activate` sets the state to ON, increments `activation_count` and
appends one log entry regardless of the prior state — two activations of a
fresh (OFF) actuator give count 2 and state ON — while `deactivate` sets
the state to OFF only when it is ON and otherwise changes nothing. -/
theorem C9_actuator_activate_deactivate (a : IoTActuator)
    (reason severity : String) :
    ((activate a reason severity).state = "ON" ∧
     (activate a reason severity).activation_count =
       a.activation_count + 1 ∧
     (activate a reason severity).activation_log =
       a.activation_log ++ [activationEntry a reason severity]) ∧
    (∀ (i : Nat) (ty r1 s1 r2 s2 : String),
      (activate (activate (mkActuator i ty) r1 s1) r2 s2).activation_count
          = 2 ∧
      (activate (activate (mkActuator i ty) r1 s1) r2 s2).state = "ON") ∧
    (a.state = "ON" → deactivate a = { a with state := "OFF" }) ∧
    (a.state ≠ "ON" → deactivate a = a) := by
  refine ⟨⟨rfl, rfl, rfl⟩, fun i ty r1 s1 r2 s2 => ⟨rfl, rfl⟩, ?_, ?_⟩
  · intro h
    rw [deactivate, if_pos h]
  · intro h
    rw [deactivate, if_neg h]

/-- Witness for C9: deactivating an ON actuator turns it OFF. -/
theorem C9_actuator_activate_deactivate_witness :
    deactivate (activate (mkActuator 1 "cooling_fan") "overheat" "WARNING") =
      { activate (mkActuator 1 "cooling_fan") "overheat" "WARNING" with
        state := "OFF" } :=
  (C9_actuator_activate_deactivate
    (activate (mkActuator 1 "cooling_fan") "overheat" "WARNING")
    "overheat" "WARNING").2.2.1 rfl

/-- A message as consumed by `CloudServer.receive_message`: only
`has_anomaly` and the carried anomalies' severities are consulted
(`actuator_cloud.py` lines 101-109). -/
structure CloudMessage where
  has_anomaly : Bool
  anomalies : List Anomaly
deriving Repr

/-- `self.statistics` of a `CloudServer` (`actuator_cloud.py` lines 79-85). -/
structure CloudStats where
  total_messages : Nat
  anomaly_messages : Nat
  normal_messages : Nat
  critical_alerts : Nat
  warnings : Nat
deriving DecidableEq, Repr

/-- `CloudServer` state: statistics plus `message_storage` (received
payloads in arrival order, wall-clock receipt time omitted). -/
structure CloudServer where
  statistics : CloudStats
  message_storage : List CloudMessage
deriving Repr

/-- The zeroed statistics dict (`actuator_cloud.py` lines 79-85). -/
def initCloudStats : CloudStats :=
  { total_messages := 0
    anomaly_messages := 0
    normal_messages := 0
    critical_alerts := 0
    warnings := 0 }

/-- `CloudServer.__init__` (`actuator_cloud.py` lines 76-85). -/
def initCloudServer : CloudServer :=
  { statistics := initCloudStats, message_storage := [] }

/-- The per-anomaly severity tally of `receive_message`
(`actuator_cloud.py` lines 105-109). -/
def countSeverity (stats : CloudStats) (a : Anomaly) : CloudStats :=
  if a.severity = "CRITICAL" then
    { stats with critical_alerts := stats.critical_alerts + 1 }
  else if a.severity = "WARNING" then
    { stats with warnings := stats.warnings + 1 }
  else stats

/-- `CloudServer.receive_message` (`actuator_cloud.py` lines 87-111). -/
def receive_message (srv : CloudServer) (msg : CloudMessage) : CloudServer :=
  let srv1 := { srv with
    message_storage := srv.message_storage ++ [msg] }
  let s1 := { srv1.statistics with
    total_messages := srv1.statistics.total_messages + 1 }
  if msg.has_anomaly then
    let s2 := { s1 with anomaly_messages := s1.anomaly_messages + 1 }
    { srv1 with statistics := msg.anomalies.foldl countSeverity s2 }
  else
    let s2 := { s1 with normal_messages := s1.normal_messages + 1 }
    { srv1 with statistics := s2 }

/-- The number of anomalies of a list whose severity is CRITICAL or
WARNING. -/
def criticalOrWarningCount (anoms : List Anomaly) : Nat :=
  anoms.countP fun a =>
    decide (a.severity = "CRITICAL" ∨ a.severity = "WARNING")

theorem countSeverity_foldl (anoms : List Anomaly) (s : CloudStats) :
    (anoms.foldl countSeverity s).total_messages = s.total_messages ∧
    (anoms.foldl countSeverity s).anomaly_messages = s.anomaly_messages ∧
    (anoms.foldl countSeverity s).normal_messages = s.normal_messages ∧
    (anoms.foldl countSeverity s).critical_alerts +
        (anoms.foldl countSeverity s).warnings =
      s.critical_alerts + s.warnings + criticalOrWarningCount anoms ∧
    s.critical_alerts ≤ (anoms.foldl countSeverity s).critical_alerts ∧
    s.warnings ≤ (anoms.foldl countSeverity s).warnings := by
  induction anoms generalizing s with
  | nil => simp [criticalOrWarningCount]
  | cons a rest ih =>
    rw [List.foldl_cons]
    obtain ⟨h1, h2, h3, h4, h5, h6⟩ := ih (countSeverity s a)
    have hcw : criticalOrWarningCount (a :: rest) =
        criticalOrWarningCount rest +
          (if a.severity = "CRITICAL" ∨ a.severity = "WARNING"
           then 1 else 0) := by
      simp [criticalOrWarningCount, List.countP_cons]
    refine ⟨?_, ?_, ?_, ?_, ?_, ?_⟩ <;>
      rw [countSeverity] at * <;> split_ifs at * with hc hw <;>
      simp_all <;> omega

theorem receive_message_stats (srv : CloudServer) (msg : CloudMessage) :
    (receive_message srv msg).statistics.total_messages =
      srv.statistics.total_messages + 1 ∧
    (receive_message srv msg).statistics.anomaly_messages =
      srv.statistics.anomaly_messages +
        (if msg.has_anomaly then 1 else 0) ∧
    (receive_message srv msg).statistics.normal_messages =
      srv.statistics.normal_messages +
        (if msg.has_anomaly then 0 else 1) ∧
    (receive_message srv msg).statistics.critical_alerts +
        (receive_message srv msg).statistics.warnings =
      srv.statistics.critical_alerts + srv.statistics.warnings +
        (if msg.has_anomaly then criticalOrWarningCount msg.anomalies
         else 0) ∧
    srv.statistics.critical_alerts ≤
      (receive_message srv msg).statistics.critical_alerts ∧
    srv.statistics.warnings ≤
      (receive_message srv msg).statistics.warnings := by
  rw [receive_message]
  by_cases hb : msg.has_anomaly <;>
    simp only [hb, if_true, if_false, Bool.false_eq_true]
  · obtain ⟨h1, h2, h3, h4, h5, h6⟩ := countSeverity_foldl msg.anomalies
      { total_messages := srv.statistics.total_messages + 1,
        anomaly_messages := srv.statistics.anomaly_messages + 1,
        normal_messages := srv.statistics.normal_messages,
        critical_alerts := srv.statistics.critical_alerts,
        warnings := srv.statistics.warnings }
    simp_all
  · simp

/-- C5: after receiving any sequence of messages, `total_messages` equals
the number received, `anomaly_messages` the number with `has_anomaly`,
`normal_messages` the rest, and `critical_alerts + warnings` the total
count of CRITICAL/WARNING anomalies carried in anomaly messages; every
counter is monotonically non-decreasing across `receive_message` calls. -/
theorem C5_cloud_counters (msgs : List CloudMessage) :
    ((msgs.foldl receive_message initCloudServer).statistics.total_messages
        = msgs.length ∧
     (msgs.foldl receive_message initCloudServer).statistics.anomaly_messages
        = (msgs.filter (fun m => m.has_anomaly)).length ∧
     (msgs.foldl receive_message initCloudServer).statistics.normal_messages
        = msgs.length - (msgs.filter (fun m => m.has_anomaly)).length ∧
     (msgs.foldl receive_message initCloudServer).statistics.critical_alerts
        + (msgs.foldl receive_message initCloudServer).statistics.warnings
        = ((msgs.filter (fun m => m.has_anomaly)).map
            (fun m => criticalOrWarningCount m.anomalies)).sum) ∧
    (∀ (srv : CloudServer) (msg : CloudMessage),
      srv.statistics.total_messages ≤
        (receive_message srv msg).statistics.total_messages ∧
      srv.statistics.anomaly_messages ≤
        (receive_message srv msg).statistics.anomaly_messages ∧
      srv.statistics.normal_messages ≤
        (receive_message srv msg).statistics.normal_messages ∧
      srv.statistics.critical_alerts ≤
        (receive_message srv msg).statistics.critical_alerts ∧
      srv.statistics.warnings ≤
        (receive_message srv msg).statistics.warnings) := by
  constructor
  · induction msgs using List.reverseRecOn with
    | nil => simp [initCloudServer, initCloudStats]
    | append_singleton l m ih =>
      rw [List.foldl_append, List.foldl_cons, List.foldl_nil]
      obtain ⟨i1, i2, i3, i4⟩ := ih
      obtain ⟨r1, r2, r3, r4, -, -⟩ :=
        receive_message_stats (l.foldl receive_message initCloudServer) m
      have hA : (l.filter (fun m => m.has_anomaly)).length ≤ l.length :=
        List.length_filter_le _ _
      by_cases hb : m.has_anomaly <;>
        simp_all [List.filter_append, hb]
      all_goals omega
  · intro srv msg
    obtain ⟨r1, r2, r3, r4, r5, r6⟩ := receive_message_stats srv msg
    refine ⟨by omega, by omega, by omega, r5, r6⟩

/-- A Python runtime value as stored in a measurement dict: a float
(modelled as ℚ) or a non-numeric value (represented by a string). -/
inductive PyVal where
  | num : ℚ → PyVal
  | str : String → PyVal
deriving DecidableEq, Repr

/-- Whether a dynamic value is numeric. -/
def PyVal.isNum : PyVal → Bool
  | .num _ => true
  | .str _ => false

/-- The Python exceptions `process_sensor_data` can raise on a malformed
reading: `KeyError` for a missing key, `TypeError` for an operation on a
non-numeric value. -/
inductive PyErr where
  | keyError
  | typeError
deriving DecidableEq, Repr

/-- A possibly malformed reading: `node_id = none` models a missing
`node_id` key; measurement values are dynamic. -/
structure DynReading where
  node_id : Option Nat
  cycle : Nat
  measurements : List (String × PyVal)
  health : ℚ

/-- The six channel keys created per node by `initialize_sensor_history`
(`edge_device.py` lines 58-64). -/
def standardChannels : List String :=
  ["temperature_1", "temperature_2", "pressure", "vibration", "rpm",
   "health"]

/-- Device state in the dynamic model.  `nodes` is the key set of the
`self.sensor_history` dict; `sensorHistory n c = none` models channel `c`
being absent from node `n`'s channel dict, so that a lookup raises
`KeyError`.  Histories may hold non-numeric values, since `deque.append`
accepts anything. -/
structure DynEdgeState where
  nodes : List Nat
  sensorHistory : Nat → String → Option (List PyVal)
  metrics : Metrics
  anomalyLog : List LogEntry

/-- A freshly constructed device, dynamic model: `self.sensor_history`
is the empty dict. -/
def initDynEdgeState : DynEdgeState :=
  { nodes := [], sensorHistory := fun _ _ => none,
    metrics := initMetrics, anomalyLog := [] }

/-- `initialize_sensor_history` (`edge_device.py` lines 55-65): when the
node is not yet a key of `self.sensor_history`, create its channel dict
with exactly the six standard channels, each an empty deque; otherwise do
nothing.  Keys outside the six are never created. -/
def init_sensor_history_dyn (st : DynEdgeState) (node : Nat) :
    DynEdgeState :=
  if node ∈ st.nodes then st
  else
    { st with
      nodes := st.nodes ++ [node]
      sensorHistory := fun n c =>
        if n = node then (if c ∈ standardChannels then some [] else none)
        else st.sensorHistory n c }

/-- `self.sensor_history[node][ch].append v` once the channel's deque `h`
has been looked up successfully. -/
def appendChannel (hist : Nat → String → Option (List PyVal)) (node : Nat)
    (ch : String) (h : List PyVal) (v : PyVal) :
    Nat → String → Option (List PyVal) :=
  fun n c =>
    if n = node then
      if c = ch then some (dequeAppend window_size h v) else hist n c
    else hist n c

/-- The measurement append loop of `process_sensor_data`
(`edge_device.py` lines 87-88): each `self.sensor_history[node_id][key]`
lookup raises `KeyError` when `key` is not among the node's channels;
appends performed before the raise persist (in-place dict mutation), so
the history reached so far is returned together with the error. -/
def appendLoopDyn (hist : Nat → String → Option (List PyVal)) (node : Nat) :
    List (String × PyVal) →
      (Nat → String → Option (List PyVal)) × Option PyErr
  | [] => (hist, none)
  | (s, v) :: rest =>
    match hist node s with
    | none => (hist, some .keyError)
    | some h => appendLoopDyn (appendChannel hist node s h v) node rest

/-- The whole append phase of `process_sensor_data` (`edge_device.py`
lines 87-89): the measurements in dict order, then the health value. -/
def appendPhaseDyn (hist : Nat → String → Option (List PyVal)) (node : Nat)
    (ms : List (String × PyVal)) (health : ℚ) :
    (Nat → String → Option (List PyVal)) × Option PyErr :=
  match appendLoopDyn hist node ms with
  | (h1, some e) => (h1, some e)
  | (h1, none) =>
    match h1 node "health" with
    | none => (h1, some .keyError)
    | some hh => (appendChannel h1 node "health" hh (.num health), none)

/-- The threshold loop of `detect_anomalies` under Python dynamic typing:
`value > threshold` with a non-numeric value raises `TypeError`
(`edge_device.py` line 137); anomalies collected before the raise are
discarded together with the loop. -/
def thresholdCheckDyn : List (String × PyVal) → Except PyErr (List Anomaly)
  | [] => .ok []
  | (s, v) :: rest =>
    match thresholds s with
    | some t =>
      match v with
      | .num q =>
        if q > t then
          (thresholdCheckDyn rest).map (fun l => thresholdAnom s q t :: l)
        else thresholdCheckDyn rest
      | .str _ => .error .typeError
    | none => thresholdCheckDyn rest

/-- `statistics.mean` under dynamic typing: raises (modelled as
`TypeError`) unless every element is numeric. -/
def meanDyn (vals : List PyVal) : Except PyErr ℚ :=
  if vals.all PyVal.isNum then
    .ok ((vals.filterMap fun v => match v with
      | .num q => some q
      | .str _ => none).sum / vals.length)
  else .error .typeError

/-- The rapid-change loop of `detect_anomalies` under dynamic typing:
`history[sensor]` (`edge_device.py` line 162) raises `KeyError` for a
channel absent from the node's dict; `statistics.mean` raises on a
non-numeric history element, and the percentage-change arithmetic raises
on a non-numeric current value — but only in the `avg > 0` branch,
matching the source's evaluation order (lines 160-179). -/
def rapidChangesDyn (history : String → Option (List PyVal)) :
    List (String × PyVal) → Except PyErr (List Anomaly)
  | [] => .ok []
  | (s, v) :: rest =>
    match history s with
    | none => .error .keyError
    | some hs =>
      if 5 ≤ hs.length then
        match meanDyn (hs.drop (hs.length - 5)) with
        | .error e => .error e
        | .ok avg =>
          if 0 < avg then
            match v with
            | .num q =>
              let change_pct := |(q - avg) / avg| * 100
              if 15 < change_pct then
                (rapidChangesDyn history rest).map
                  (fun l => rapidAnom s q avg change_pct :: l)
              else rapidChangesDyn history rest
            | .str _ => .error .typeError
          else rapidChangesDyn history rest
      else rapidChangesDyn history rest

/-- `detect_anomalies` under dynamic typing: the threshold loop runs fully
first, then the health check (which cannot raise, `health` being a float),
then the rapid-change loop; the first raise aborts the call.  `history`
is the node's channel dict, a lookup function that may lack keys. -/
def detect_anomalies_dyn (history : String → Option (List PyVal))
    (measurements : List (String × PyVal)) (health : ℚ) :
    Except PyErr (List Anomaly) :=
  match thresholdCheckDyn measurements with
  | .error e => .error e
  | .ok tAnoms =>
    match rapidChangesDyn history measurements with
    | .error e => .error e
    | .ok rAnoms => .ok (tAnoms ++ healthCheck health ++ rAnoms)

/-- `control_actuators` on the dynamic device state
(`edge_device.py` lines 183-211). -/
def control_actuators_dyn (st : DynEdgeState) (node : Nat)
    (anomalies : List Anomaly) : DynEdgeState :=
  anomalies.foldl
    (fun s a =>
      { s with
        metrics := { s.metrics with
          actuator_commands := s.metrics.actuator_commands + 1 },
        anomalyLog := s.anomalyLog ++ [{ node_id := node, anomaly := a }] })
    st

/-- `process_sensor_data` under Python dynamic typing, mirroring the
source's execution order (`edge_device.py` lines 67-117): the `node_id`
lookup raises `KeyError` before any mutation; `initialize_sensor_history`
then creates the node's six channels if the node is new; the append loop
mutates `sensor_history` and raises `KeyError` at the first measurement
key outside the node's channels, keeping the appends made before it; a
`TypeError` (or `KeyError`) inside `detect_anomalies` propagates after
the whole append phase but before any metrics update.  Returns the device
state as left behind by the call with the result or the raised error. -/
def process_sensor_data_dyn (st : DynEdgeState) (r : DynReading) :
    DynEdgeState × Except PyErr ProcResult :=
  match r.node_id with
  | none => (st, .error .keyError)
  | some node =>
    let st0 := init_sensor_history_dyn st node
    match appendPhaseDyn st0.sensorHistory node r.measurements r.health with
    | (hist2, some e) => ({ st0 with sensorHistory := hist2 }, .error e)
    | (hist2, none) =>
    let st1 := { st0 with sensorHistory := hist2 }
    match detect_anomalies_dyn (fun c => hist2 node c)
        r.measurements r.health with
    | .error e => (st1, .error e)
    | .ok anomalies =>
      let m1 := { st1.metrics with
        total_processed := st1.metrics.total_processed + 1 }
      let should_alert_cloud : Bool :=
        !anomalies.isEmpty || r.cycle % 10 == 0
      let m2 := if should_alert_cloud then
          { m1 with cloud_messages_sent := m1.cloud_messages_sent + 1 }
        else m1
      let st2 := { st1 with metrics := m2 }
      let st3 :=
        if anomalies.isEmpty then st2
        else
          control_actuators_dyn
            { st2 with metrics := { st2.metrics with
                anomalies_detected :=
                  st2.metrics.anomalies_detected + anomalies.length } }
            node anomalies
      (st3, .ok { anomalies := anomalies,
                  should_alert_cloud := should_alert_cloud })

/-- A reading carrying a non-numeric value for a thresholded channel. -/
def bad_reading : DynReading :=
  { node_id := some 1, cycle := 1,
    measurements := [("temperature_1", .str "sensor fault")], health := 50 }

theorem thresholdCheckDyn_error (ms : List (String × PyVal))
    (h : ∃ p ∈ ms, p.2.isNum = false ∧ (thresholds p.1).isSome) :
    thresholdCheckDyn ms = .error .typeError := by
  induction ms with
  | nil =>
    obtain ⟨p, hp, -⟩ := h
    cases hp
  | cons q rest ih =>
    obtain ⟨p, hp, hnum, hthr⟩ := h
    rcases List.mem_cons.mp hp with heq | hmem
    · subst heq
      obtain ⟨s, v⟩ := p
      cases v with
      | num q0 => simp [PyVal.isNum] at hnum
      | str sv =>
        rcases hsome : thresholds s with _ | t
        · rw [hsome] at hthr
          cases hthr
        · simp [thresholdCheckDyn, hsome]
    · obtain ⟨s, v⟩ := q
      have herr := ih ⟨p, hmem, hnum, hthr⟩
      rcases hsome : thresholds s with _ | t
      · simp [thresholdCheckDyn, hsome, herr]
      · cases v with
        | num q0 => simp [thresholdCheckDyn, hsome, herr, Except.map]
        | str sv => simp [thresholdCheckDyn, hsome]

theorem thresholdCheckDyn_ok (ms : List (String × PyVal))
    (h : ∀ p ∈ ms, p.2.isNum = true) :
    ∃ l, thresholdCheckDyn ms = .ok l := by
  induction ms with
  | nil => exact ⟨[], rfl⟩
  | cons q rest ih =>
    obtain ⟨l, hl⟩ := ih fun p hp => h p (List.mem_cons_of_mem _ hp)
    obtain ⟨s, v⟩ := q
    cases v with
    | str sv =>
      have := h (s, .str sv) (List.mem_cons_self _ _)
      simp [PyVal.isNum] at this
    | num q0 =>
      rcases hsome : thresholds s with _ | t
      · exact ⟨l, by simp [thresholdCheckDyn, hsome, hl]⟩
      · by_cases hgt : q0 > t
        · exact ⟨thresholdAnom s q0 t :: l,
            by simp [thresholdCheckDyn, hsome, hgt, hl, Except.map]⟩
        · exact ⟨l, by simp [thresholdCheckDyn, hsome, hgt, hl]⟩

theorem rapidChangesDyn_ok (history : String → Option (List PyVal))
    (ms : List (String × PyVal))
    (hms : ∀ p ∈ ms, p.2.isNum = true)
    (hdom : ∀ p ∈ ms, (history p.1).isSome = true)
    (hh : ∀ (s : String) (hs : List PyVal), history s = some hs →
      hs.all PyVal.isNum = true) :
    ∃ l, rapidChangesDyn history ms = .ok l := by
  induction ms with
  | nil => exact ⟨[], rfl⟩
  | cons q rest ih =>
    obtain ⟨l, hl⟩ := ih (fun p hp => hms p (List.mem_cons_of_mem _ hp))
      (fun p hp => hdom p (List.mem_cons_of_mem _ hp))
    obtain ⟨s, v⟩ := q
    obtain ⟨hs, hhs⟩ := Option.isSome_iff_exists.mp
      (hdom (s, v) (List.mem_cons_self _ _))
    have hget : ∀ x ∈ hs.drop (hs.length - 5), x.isNum = true :=
      fun x hx =>
        (List.all_eq_true.mp (hh s hs hhs)) x (List.mem_of_mem_drop hx)
    have hmean : meanDyn (hs.drop (hs.length - 5)) =
        .ok ((((hs.drop (hs.length - 5)).filterMap
          fun v => match v with
          | .num q => some q
          | .str _ => none)).sum / (hs.drop (hs.length - 5)).length) := by
      rw [meanDyn, if_pos (List.all_eq_true.mpr hget)]
    cases v with
    | str sv =>
      have := hms (s, .str sv) (List.mem_cons_self _ _)
      simp [PyVal.isNum] at this
    | num q0 =>
      by_cases hlen : 5 ≤ hs.length
      · simp only [rapidChangesDyn, hhs, if_pos hlen, hmean]
        split_ifs
        · rw [hl]
          exact ⟨_, rfl⟩
        · exact ⟨l, hl⟩
        · exact ⟨l, hl⟩
      · simp only [rapidChangesDyn, hhs, if_neg hlen]
        exact ⟨l, hl⟩

theorem appendChannel_isSome (hist : Nat → String → Option (List PyVal))
    (node : Nat) (ch : String) (h : List PyVal) (v : PyVal)
    (hsome : hist node ch = some h) (n : Nat) (c : String) :
    ((appendChannel hist node ch h v) n c).isSome = (hist n c).isSome := by
  rw [appendChannel]
  by_cases h1 : n = node
  · by_cases h2 : c = ch
    · subst h1
      subst h2
      simp [hsome]
    · simp [h1, h2]
  · simp [h1]

theorem appendLoopDyn_isSome (hist : Nat → String → Option (List PyVal))
    (node : Nat) (ms : List (String × PyVal)) :
    ∀ (n : Nat) (c : String),
      ((appendLoopDyn hist node ms).1 n c).isSome = (hist n c).isSome := by
  induction ms generalizing hist with
  | nil => intro n c; rfl
  | cons q rest ih =>
    obtain ⟨s, v⟩ := q
    intro n c
    rcases hxs : hist node s with _ | h
    · simp only [appendLoopDyn, hxs]
    · simp only [appendLoopDyn, hxs]
      rw [ih (appendChannel hist node s h v) n c,
        appendChannel_isSome hist node s h v hxs n c]

theorem appendLoopDyn_complete (hist : Nat → String → Option (List PyVal))
    (node : Nat) (ms : List (String × PyVal))
    (hdom : ∀ p ∈ ms, (hist node p.1).isSome = true) :
    (appendLoopDyn hist node ms).2 = none := by
  induction ms generalizing hist with
  | nil => rfl
  | cons q rest ih =>
    obtain ⟨s, v⟩ := q
    obtain ⟨h, hxs⟩ := Option.isSome_iff_exists.mp
      (hdom (s, v) (List.mem_cons_self _ _))
    simp only [appendLoopDyn, hxs]
    refine ih _ fun p hp => ?_
    rw [appendChannel_isSome hist node s h v hxs]
    exact hdom p (List.mem_cons_of_mem _ hp)

theorem appendLoopDyn_keyError (hist : Nat → String → Option (List PyVal))
    (node : Nat) (ms : List (String × PyVal))
    (hmiss : ∃ p ∈ ms, hist node p.1 = none) :
    (appendLoopDyn hist node ms).2 = some .keyError := by
  induction ms generalizing hist with
  | nil =>
    obtain ⟨p, hp, -⟩ := hmiss
    cases hp
  | cons q rest ih =>
    obtain ⟨s, v⟩ := q
    rcases hxs : hist node s with _ | h
    · simp only [appendLoopDyn, hxs]
    · simp only [appendLoopDyn, hxs]
      obtain ⟨p, hp, hpn⟩ := hmiss
      rcases List.mem_cons.mp hp with heq | hmem
      · subst heq
        rw [hxs] at hpn
        cases hpn
      · refine ih _ ⟨p, hmem, ?_⟩
        have h2 : ((appendChannel hist node s h v) node p.1).isSome
            = false := by
          rw [appendChannel_isSome hist node s h v hxs node p.1, hpn]
          rfl
        exact Option.not_isSome_iff_eq_none.mp (by rw [h2]; decide)

theorem appendPhaseDyn_complete (hist : Nat → String → Option (List PyVal))
    (node : Nat) (ms : List (String × PyVal)) (health : ℚ)
    (hdom : ∀ p ∈ ms, (hist node p.1).isSome = true)
    (hhealth : (hist node "health").isSome = true) :
    (appendPhaseDyn hist node ms health).2 = none := by
  have hl2 := appendLoopDyn_complete hist node ms hdom
  have hhs : ((appendLoopDyn hist node ms).1 node "health").isSome = true := by
    rw [appendLoopDyn_isSome hist node ms node "health"]
    exact hhealth
  rcases hap : appendLoopDyn hist node ms with ⟨h1, e⟩
  rw [hap] at hl2 hhs
  simp only at hl2 hhs
  subst hl2
  obtain ⟨hh, hhh⟩ := Option.isSome_iff_exists.mp hhs
  simp only [appendPhaseDyn, hap, hhh]

theorem appendPhaseDyn_keyError (hist : Nat → String → Option (List PyVal))
    (node : Nat) (ms : List (String × PyVal)) (health : ℚ)
    (hmiss : ∃ p ∈ ms, hist node p.1 = none) :
    (appendPhaseDyn hist node ms health).2 = some .keyError := by
  have hl2 := appendLoopDyn_keyError hist node ms hmiss
  rcases hap : appendLoopDyn hist node ms with ⟨h1, e⟩
  rw [hap] at hl2
  simp only at hl2
  subst hl2
  simp only [appendPhaseDyn, hap]

theorem appendPhaseDyn_isSome (hist : Nat → String → Option (List PyVal))
    (node : Nat) (ms : List (String × PyVal)) (health : ℚ)
    (n : Nat) (c : String) :
    ((appendPhaseDyn hist node ms health).1 n c).isSome
      = (hist n c).isSome := by
  have hl := appendLoopDyn_isSome hist node ms n c
  rcases hap : appendLoopDyn hist node ms with ⟨h1, e⟩
  rw [hap] at hl
  simp only at hl
  cases e with
  | some e0 =>
    simp only [appendPhaseDyn, hap]
    exact hl
  | none =>
    rcases hh : h1 node "health" with _ | hhd
    · simp only [appendPhaseDyn, hap, hh]
      exact hl
    · simp only [appendPhaseDyn, hap, hh]
      rw [appendChannel_isSome h1 node "health" hhd _ hh n c]
      exact hl

theorem init_sensor_history_fields (st : DynEdgeState) (node : Nat) :
    (init_sensor_history_dyn st node).metrics = st.metrics ∧
    (init_sensor_history_dyn st node).anomalyLog = st.anomalyLog := by
  rw [init_sensor_history_dyn]
  split_ifs <;> exact ⟨rfl, rfl⟩

/-- C8 counterexample: on a fresh device, a reading whose `temperature_1`
value is the non-numeric string `"sensor fault"` makes
`process_sensor_data` raise — but only after the malformed value has been
appended to `sensor_history`, so the device state is NOT left unchanged. -/
theorem C8_invalid_reading_counterexample :
    (process_sensor_data_dyn initDynEdgeState bad_reading).2 =
      .error .typeError ∧
    (process_sensor_data_dyn initDynEdgeState bad_reading).1.sensorHistory
        1 "temperature_1" ≠
      initDynEdgeState.sensorHistory 1 "temperature_1" :=
  ⟨rfl, by decide⟩

/-- C8 (amended): a reading with a missing `node_id` raises `KeyError`
with the whole device state unchanged.  When every measurement key (and
`health`) is among the node's channels, a reading with a non-numeric value
for a thresholded channel raises `TypeError` with the metrics counters and
`anomaly_log` unchanged, but only after the reading's values (including
the malformed one) were appended to `sensor_history`.  A reading with a
measurement key absent from the node's channel dict (only the six
channels of `initialize_sensor_history` exist) raises `KeyError`
mid-append, with metrics and `anomaly_log` unchanged but the appends made
before the bad key retained.  A well-formed reading (with `node_id`, keys
among the node's channels, all values numeric) is processed without error
whenever the histories consulted hold only numeric values. -/
theorem C8_invalid_reading_amended :
    (∀ (st : DynEdgeState) (r : DynReading), r.node_id = none →
      process_sensor_data_dyn st r = (st, .error .keyError)) ∧
    (∀ (st : DynEdgeState) (r : DynReading) (node : Nat),
      r.node_id = some node →
      (∀ p ∈ r.measurements,
        ((init_sensor_history_dyn st node).sensorHistory node p.1).isSome
          = true) →
      ((init_sensor_history_dyn st node).sensorHistory node
          "health").isSome = true →
      (∃ p ∈ r.measurements, p.2.isNum = false ∧ (thresholds p.1).isSome) →
      ((process_sensor_data_dyn st r).2 = .error .typeError ∧
       (process_sensor_data_dyn st r).1.metrics = st.metrics ∧
       (process_sensor_data_dyn st r).1.anomalyLog = st.anomalyLog ∧
       (process_sensor_data_dyn st r).1.sensorHistory =
         (appendPhaseDyn (init_sensor_history_dyn st node).sensorHistory
           node r.measurements r.health).1 ∧
       (appendPhaseDyn (init_sensor_history_dyn st node).sensorHistory
           node r.measurements r.health).2 = none)) ∧
    (∀ (st : DynEdgeState) (r : DynReading) (node : Nat),
      r.node_id = some node →
      (∃ p ∈ r.measurements,
        (init_sensor_history_dyn st node).sensorHistory node p.1 = none) →
      ((process_sensor_data_dyn st r).2 = .error .keyError ∧
       (process_sensor_data_dyn st r).1.metrics = st.metrics ∧
       (process_sensor_data_dyn st r).1.anomalyLog = st.anomalyLog ∧
       (process_sensor_data_dyn st r).1.sensorHistory =
         (appendPhaseDyn (init_sensor_history_dyn st node).sensorHistory
           node r.measurements r.health).1)) ∧
    (∀ (st : DynEdgeState) (r : DynReading) (node : Nat),
      r.node_id = some node →
      (∀ p ∈ r.measurements, p.2.isNum = true) →
      (∀ p ∈ r.measurements,
        ((init_sensor_history_dyn st node).sensorHistory node p.1).isSome
          = true) →
      ((init_sensor_history_dyn st node).sensorHistory node
          "health").isSome = true →
      (∀ (c : String) (hs : List PyVal),
        (appendPhaseDyn (init_sensor_history_dyn st node).sensorHistory
          node r.measurements r.health).1 node c = some hs →
        hs.all PyVal.isNum = true) →
      ∃ res, (process_sensor_data_dyn st r).2 = .ok res) := by
  refine ⟨?_, ?_, ?_, ?_⟩
  · intro st r hnone
    simp [process_sensor_data_dyn, hnone]
  · intro st r node hnode hdom hhealth hbad
    have herr := thresholdCheckDyn_error r.measurements hbad
    have hap2 : (appendPhaseDyn
        (init_sensor_history_dyn st node).sensorHistory
        node r.measurements r.health).2 = none :=
      appendPhaseDyn_complete _ _ _ _ hdom hhealth
    rcases hap : appendPhaseDyn
        (init_sensor_history_dyn st node).sensorHistory
        node r.measurements r.health with ⟨hist2, e⟩
    rw [hap] at hap2
    simp only at hap2
    subst hap2
    have hred : process_sensor_data_dyn st r =
        ({ init_sensor_history_dyn st node with sensorHistory := hist2 },
          .error .typeError) := by
      simp only [process_sensor_data_dyn, hnode, hap,
        detect_anomalies_dyn, herr]
    rw [hred]
    exact ⟨rfl, (init_sensor_history_fields st node).1,
      (init_sensor_history_fields st node).2, rfl, rfl⟩
  · intro st r node hnode hmiss
    have hap2 : (appendPhaseDyn
        (init_sensor_history_dyn st node).sensorHistory
        node r.measurements r.health).2 = some .keyError :=
      appendPhaseDyn_keyError _ _ _ _ hmiss
    rcases hap : appendPhaseDyn
        (init_sensor_history_dyn st node).sensorHistory
        node r.measurements r.health with ⟨hist2, e⟩
    rw [hap] at hap2
    simp only at hap2
    subst hap2
    have hred : process_sensor_data_dyn st r =
        ({ init_sensor_history_dyn st node with sensorHistory := hist2 },
          .error .keyError) := by
      simp only [process_sensor_data_dyn, hnode, hap]
    rw [hred]
    exact ⟨rfl, (init_sensor_history_fields st node).1,
      (init_sensor_history_fields st node).2, rfl⟩
  · intro st r node hnode hnum hdom hhealth hhist
    have hap2 : (appendPhaseDyn
        (init_sensor_history_dyn st node).sensorHistory
        node r.measurements r.health).2 = none :=
      appendPhaseDyn_complete _ _ _ _ hdom hhealth
    have hiso : ∀ c : String,
        ((appendPhaseDyn (init_sensor_history_dyn st node).sensorHistory
          node r.measurements r.health).1 node c).isSome =
        ((init_sensor_history_dyn st node).sensorHistory node c).isSome :=
      fun c => appendPhaseDyn_isSome _ _ _ _ node c
    rcases hap : appendPhaseDyn
        (init_sensor_history_dyn st node).sensorHistory
        node r.measurements r.health with ⟨hist2, e⟩
    rw [hap] at hap2 hiso hhist
    simp only at hap2 hiso hhist
    subst hap2
    obtain ⟨lt, hlt⟩ := thresholdCheckDyn_ok r.measurements hnum
    obtain ⟨lr, hlr⟩ := rapidChangesDyn_ok (fun c => hist2 node c)
      r.measurements hnum
      (fun p hp => by rw [hiso p.1]; exact hdom p hp)
      (fun s hs h => hhist s hs h)
    have hres : (process_sensor_data_dyn st r).2 =
        .ok { anomalies := lt ++ healthCheck r.health ++ lr,
              should_alert_cloud :=
                !(lt ++ healthCheck r.health ++ lr).isEmpty ||
                  r.cycle % 10 == 0 } := by
      simp only [process_sensor_data_dyn, hnode, hap,
        detect_anomalies_dyn, hlt, hlr]
    exact ⟨_, hres⟩

/-- Witness for the amended C8 on the concrete malformed reading. -/
theorem C8_invalid_reading_amended_witness :
    (process_sensor_data_dyn initDynEdgeState bad_reading).2 =
        .error .typeError ∧
    (process_sensor_data_dyn initDynEdgeState bad_reading).1.metrics =
        initDynEdgeState.metrics ∧
    (process_sensor_data_dyn initDynEdgeState bad_reading).1.anomalyLog =
        initDynEdgeState.anomalyLog ∧
    (process_sensor_data_dyn initDynEdgeState bad_reading).1.sensorHistory =
        (appendPhaseDyn (init_sensor_history_dyn initDynEdgeState 1).sensorHistory
          1 bad_reading.measurements bad_reading.health).1 ∧
    (appendPhaseDyn (init_sensor_history_dyn initDynEdgeState 1).sensorHistory
        1 bad_reading.measurements bad_reading.health).2 = none :=
  C8_invalid_reading_amended.2.1 initDynEdgeState bad_reading 1 rfl
    (by decide) (by decide)
    ⟨("temperature_1", .str "sensor fault"), by decide, by decide, by decide⟩

end EdgeVsCloud
